import Mathlib

/-!
# go-twitch, package api: the channel, followed and followers list calls

A shallow embedding of `api/twitch_channels.go`.

* Pointers to builders are modelled by state passing: a chain method maps the
  state of its receiver to the state of the same receiver after the call (the
  method returns its receiver).
* Slices carry their spare capacity, so that `append` writing into a shared
  backing array is visible.
* A Go `int` is an `Int`; nothing here computes with it, it is only printed.
* `doRequest` and `decodeResponse` are declared in other files of the package.
  They are parameters, taken as functions of their arguments that follow Go's
  convention of returning either a result or an error; `Do` records what it
  does to them, and to the response body, in a trace.
-/

namespace GoTwitch

/-! ## Go slices -/

/-- A Go slice seen from its header: `elems` are the cells `s[0:len(s)]`, and
`spare` are the cells of the backing array between `len(s)` and `cap(s)`. -/
structure Slice (α : Type) where
  elems : List α
  spare : List α

/-- Allocation policy of the Go runtime: `growslice oldCap n` is the content of
the cells past the length of a backing array newly allocated to hold `n`
elements when a slice of capacity `oldCap` has to grow.  How many there are is
up to the runtime, so it is a parameter. -/
class Runtime (α : Type) where
  growslice : Nat → Nat → List α

namespace Slice

variable {α : Type}

/-- The nil slice: no elements, no capacity. -/
def nil : Slice α := ⟨[], []⟩

/-- Length of the slice, `len(s)`. -/
def len (s : Slice α) : Nat := s.elems.length

/-- Capacity of the slice, `cap(s)`. -/
def cap (s : Slice α) : Nat := s.elems.length + s.spare.length

/-- Go's `append(s, xs...)`.  The first component is the slice returned.  The
second is `s` as its own header sees it afterwards: when the new elements fit
in the capacity they are written into the shared backing array past `len(s)`,
otherwise a new array is allocated and `s` is left alone. -/
def append [Runtime α] (s : Slice α) (xs : List α) : Slice α × Slice α :=
  if xs.length ≤ s.spare.length then
    (⟨s.elems ++ xs, s.spare.drop xs.length⟩, ⟨s.elems, xs ++ s.spare.drop xs.length⟩)
  else
    (⟨s.elems ++ xs, Runtime.growslice s.cap (s.len + xs.length)⟩, s)

end Slice

/-! ## Collaborators declared outside `twitch_channels.go` -/

/-- The two option constructors this file calls.  `RequestOption`,
`AddQueryParameter` and `SetQueryParameter` are declared in another file of
package api, so the type and the constructors are parameters. -/
class RequestOptions (RequestOption : Type) where
  AddQueryParameter : String → String → RequestOption
  SetQueryParameter : String → String → RequestOption

export RequestOptions (AddQueryParameter SetQueryParameter)

/-- A non-nil Go `error` value. -/
structure Error where
  msg : String
  deriving DecidableEq, Repr

/-- The `context.Context` handed to `Do`; it is only forwarded. -/
structure Context where
  canceled : Bool
  deriving DecidableEq, Repr

/-- Go's `http.Header`. -/
abbrev Header := List (String × List String)

/-- The body of an HTTP response, an `io.ReadCloser`, given by its bytes. -/
structure Body where
  bytes : String
  deriving DecidableEq, Repr

/-- The fields of `http.Response` the calls use. -/
structure Response where
  StatusCode : Nat
  Header : Header
  Body : Body
  deriving DecidableEq, Repr

/-- Go's `http.MethodGet`. -/
def MethodGet : String := "GET"

/-- Modelled from the spec: the transport collaborator `Client.doRequest`
(section 6): it accepts the cancellation context, method, path, body and
accumulated options, and returns either a response or a transport error.  The
request body is `none` for Go's nil reader. -/
structure Client (RequestOption : Type) where
  doRequest : Context → String → String → Option String → List RequestOption →
    Except Error Response

/-- Modelled from the spec: the `pagination` object of the wire envelope. -/
structure Pagination where
  Cursor : String
  deriving DecidableEq, Repr

/-- Modelled from the spec: the envelope `decodeResponse[T]` returns, with the
decoded `data` sequence and the pagination cursor (empty when absent). -/
structure Envelope (T : Type) where
  Data : List T
  Pagination : Pagination

/-- Go's `time.Time`, as seconds since the Unix epoch. -/
structure Time where
  unix : Int
  deriving DecidableEq, Repr

/-- Go's `fmt.Sprint` on an `int`: the decimal digits, with a leading minus
sign for a negative number. -/
def Sprint (n : Int) : String :=
  match n with
  | Int.ofNat m => Nat.repr m
  | Int.negSucc m => "-" ++ Nat.repr (m + 1)

/-- Value of a decimal digit character. -/
def digitValue (c : Char) : Nat := c.toNat - 48

/-- Value of a list of decimal digits, most significant first. -/
def decimalValue (cs : List Char) : Nat := cs.foldl (fun a c => 10 * a + digitValue c) 0

/-- Reads a decimal integer back: an optional minus sign, then digits. -/
def readDecimal (s : String) : Int :=
  match s.data with
  | '-' :: cs => - (decimalValue cs : Int)
  | cs => (decimalValue cs : Int)

/-- Modelled from the spec: the options of section 4.1 in symbolic form, an
"add" and a "set" of a query parameter from a key and a value, together with
`Nil`, the zero value of the option type that fills unused slice cells. -/
inductive QueryOption where
  | Nil
  | AddQueryParameter (key value : String)
  | SetQueryParameter (key value : String)
  deriving DecidableEq, Repr

instance : RequestOptions QueryOption :=
  ⟨QueryOption.AddQueryParameter, QueryOption.SetQueryParameter⟩

/-- A growth policy that doubles the capacity when that is enough: the new
array has `max n (2 * oldCap)` cells, those past `n` holding zero values. -/
instance : Runtime QueryOption :=
  ⟨fun oldCap n => List.replicate (max n (2 * oldCap) - n) QueryOption.Nil⟩

/-! ## Entities -/

structure Channel where
  ID : String
  Login : String
  DisplayName : String
  GameID : String
  GameName : String
  Title : String
  Delay : Int
  Tags : List String
  ContentClassificationLabels : List String
  IsBrandedContent : Bool
  deriving DecidableEq, Repr

structure Followed where
  BroadcasterID : String
  BroadcasterLogin : String
  BroadcasterName : String
  FollowedAt : Time
  deriving DecidableEq, Repr

structure Follower where
  UserID : String
  UserLogin : String
  UserName : String
  FollowedAt : Time
  deriving DecidableEq, Repr

/-! ## Resources and call builders -/

structure FollowedResource (RequestOption : Type) where
  client : Client RequestOption

structure FollowersResource (RequestOption : Type) where
  client : Client RequestOption

structure ChannelsResource (RequestOption : Type) where
  client : Client RequestOption
  Followed : FollowedResource RequestOption
  Followers : FollowersResource RequestOption

def NewFollowedResource {RequestOption : Type} (client : Client RequestOption) :
    FollowedResource RequestOption :=
  ⟨client⟩

def NewFollowersResource {RequestOption : Type} (client : Client RequestOption) :
    FollowersResource RequestOption :=
  ⟨client⟩

def NewChannelsResource {RequestOption : Type} (client : Client RequestOption) :
    ChannelsResource RequestOption :=
  ⟨client, NewFollowedResource client, NewFollowersResource client⟩

structure ChannelsListCall (RequestOption : Type) where
  resource : ChannelsResource RequestOption
  opts : Slice RequestOption

structure ChannelsListResponse where
  Header : Header
  Data : List Channel
  deriving DecidableEq, Repr

structure FollowedListCall (RequestOption : Type) where
  resource : FollowedResource RequestOption
  opts : Slice RequestOption

structure FollowedListResponse where
  Header : Header
  Data : List Followed
  Cursor : String
  deriving DecidableEq, Repr

structure FollowersListCall (RequestOption : Type) where
  resource : FollowersResource RequestOption
  opts : Slice RequestOption

structure FollowersListResponse where
  Header : Header
  Data : List Follower
  Cursor : String
  deriving DecidableEq, Repr

section Builders

variable {RequestOption : Type} [RequestOptions RequestOption] [Runtime RequestOption]

/-- Method `ChannelsResource.List`: a new call on `r`, its `opts` left nil. -/
def ChannelsResource.List (r : ChannelsResource RequestOption) :
    ChannelsListCall RequestOption :=
  ⟨r, Slice.nil⟩

/-- Method `ChannelsListCall.BroadcasterID`: the loop appends one option per id,
in the order of `ids`. -/
def ChannelsListCall.BroadcasterID (c : ChannelsListCall RequestOption) (ids : List String) :
    ChannelsListCall RequestOption :=
  ids.foldl
    (fun c id => { c with opts := (c.opts.append [AddQueryParameter "broadcaster_id" id]).1 }) c

def FollowedResource.List (r : FollowedResource RequestOption) :
    FollowedListCall RequestOption :=
  ⟨r, Slice.nil⟩

def FollowedListCall.BroadcasterID (c : FollowedListCall RequestOption) (id : String) :
    FollowedListCall RequestOption :=
  { c with opts := (c.opts.append [SetQueryParameter "broadcaster_id" id]).1 }

def FollowedListCall.UserID (c : FollowedListCall RequestOption) (id : String) :
    FollowedListCall RequestOption :=
  { c with opts := (c.opts.append [SetQueryParameter "user_id" id]).1 }

def FollowedListCall.First (c : FollowedListCall RequestOption) (n : Int) :
    FollowedListCall RequestOption :=
  { c with opts := (c.opts.append [SetQueryParameter "first" (Sprint n)]).1 }

def FollowedListCall.After (c : FollowedListCall RequestOption) (n : Int) :
    FollowedListCall RequestOption :=
  { c with opts := (c.opts.append [SetQueryParameter "after" (Sprint n)]).1 }

def FollowersResource.List (r : FollowersResource RequestOption) :
    FollowersListCall RequestOption :=
  ⟨r, Slice.nil⟩

def FollowersListCall.BroadcasterID (c : FollowersListCall RequestOption) (id : String) :
    FollowersListCall RequestOption :=
  { c with opts := (c.opts.append [SetQueryParameter "broadcaster_id" id]).1 }

def FollowersListCall.UserID (c : FollowersListCall RequestOption) (id : String) :
    FollowersListCall RequestOption :=
  { c with opts := (c.opts.append [SetQueryParameter "user_id" id]).1 }

def FollowersListCall.First (c : FollowersListCall RequestOption) (n : Int) :
    FollowersListCall RequestOption :=
  { c with opts := (c.opts.append [SetQueryParameter "first" (Sprint n)]).1 }

def FollowersListCall.After (c : FollowersListCall RequestOption) (n : Int) :
    FollowersListCall RequestOption :=
  { c with opts := (c.opts.append [SetQueryParameter "after" (Sprint n)]).1 }

end Builders

/-! ## Execution -/

/-- What `Do` does to its collaborators, in program order. -/
inductive Event (RequestOption : Type) where
  | doRequest (ctx : Context) (method path : String) (body : Option String)
      (opts : List RequestOption)
  | decodeResponse (res : Response)
  | close (body : Body)

/-- The result of running a `Do` method on receiver type `C` with response type
`R`: the two Go return values (`none` is nil), the receiver after the call, and
the events performed. -/
structure Outcome (RequestOption C R : Type) where
  response : Option R
  err : Option Error
  self : C
  trace : List (Event RequestOption)

section Execution

variable {RequestOption : Type} [Runtime RequestOption]

/-- Method `ChannelsListCall.Do`.  The options sent are `append(opts, c.opts...)`: the
receiver's slice is only read.  `decodeResponse` stands for the generic
`decodeResponse[Channel]`, which is declared in another file. -/
def ChannelsListCall.Do (decodeResponse : Response → Except Error (Envelope Channel))
    (c : ChannelsListCall RequestOption) (ctx : Context) (opts : Slice RequestOption) :
    Outcome RequestOption (ChannelsListCall RequestOption) ChannelsListResponse :=
  let merged := (opts.append c.opts.elems).1
  let sent := Event.doRequest ctx MethodGet "/channels" none merged.elems
  match c.resource.client.doRequest ctx MethodGet "/channels" none merged.elems with
  | .error err => ⟨none, some err, c, [sent]⟩
  | .ok res =>
    match decodeResponse res with
    | .error err => ⟨none, some err, c, [sent, .decodeResponse res, .close res.Body]⟩
    | .ok data =>
      ⟨some ⟨res.Header, data.Data⟩, none, c, [sent, .decodeResponse res, .close res.Body]⟩

/-- Method `FollowedListCall.Do`.  The options sent are `append(c.opts, opts...)`, which
may write into the backing array of `c.opts`; the receiver keeps its header. -/
def FollowedListCall.Do (decodeResponse : Response → Except Error (Envelope Followed))
    (c : FollowedListCall RequestOption) (ctx : Context) (opts : Slice RequestOption) :
    Outcome RequestOption (FollowedListCall RequestOption) FollowedListResponse :=
  let merged := c.opts.append opts.elems
  let self : FollowedListCall RequestOption := { c with opts := merged.2 }
  let sent := Event.doRequest ctx MethodGet "/channels/followed" none merged.1.elems
  match c.resource.client.doRequest ctx MethodGet "/channels/followed" none merged.1.elems with
  | .error err => ⟨none, some err, self, [sent]⟩
  | .ok res =>
    match decodeResponse res with
    | .error err => ⟨none, some err, self, [sent, .decodeResponse res, .close res.Body]⟩
    | .ok data =>
      ⟨some ⟨res.Header, data.Data, data.Pagination.Cursor⟩, none, self,
        [sent, .decodeResponse res, .close res.Body]⟩

/-- Method `FollowersListCall.Do`, the same shape as `FollowedListCall.Do`. -/
def FollowersListCall.Do (decodeResponse : Response → Except Error (Envelope Follower))
    (c : FollowersListCall RequestOption) (ctx : Context) (opts : Slice RequestOption) :
    Outcome RequestOption (FollowersListCall RequestOption) FollowersListResponse :=
  let merged := c.opts.append opts.elems
  let self : FollowersListCall RequestOption := { c with opts := merged.2 }
  let sent := Event.doRequest ctx MethodGet "/channels/followers" none merged.1.elems
  match c.resource.client.doRequest ctx MethodGet "/channels/followers" none merged.1.elems with
  | .error err => ⟨none, some err, self, [sent]⟩
  | .ok res =>
    match decodeResponse res with
    | .error err => ⟨none, some err, self, [sent, .decodeResponse res, .close res.Body]⟩
    | .ok data =>
      ⟨some ⟨res.Header, data.Data, data.Pagination.Cursor⟩, none, self,
        [sent, .decodeResponse res, .close res.Body]⟩

end Execution

/-! ## Observations on traces -/

/-- The transport calls of a trace, in order: method, path, body and options. -/
def requests {RequestOption : Type} :
    List (Event RequestOption) → List (String × String × Option String × List RequestOption)
  | [] => []
  | .doRequest _ m p b o :: t => (m, p, b, o) :: requests t
  | _ :: t => requests t

/-- How many times a trace closes the body `b`. -/
def closeCount {RequestOption : Type} (b : Body) : List (Event RequestOption) → Nat
  | [] => 0
  | .close x :: t => (if x = b then 1 else 0) + closeCount b t
  | _ :: t => closeCount b t

/-- How many `Close` calls a trace holds, on any body. -/
def closes {RequestOption : Type} : List (Event RequestOption) → Nat
  | [] => 0
  | .close _ :: t => 1 + closes t
  | _ :: t => closes t

/-! ## Chains of configuration calls -/

/-- One configuration call on a followed or followers list builder. -/
inductive Config where
  | BroadcasterID (id : String)
  | UserID (id : String)
  | First (n : Int)
  | After (n : Int)
  deriving DecidableEq, Repr

section Chains

variable {RequestOption : Type} [RequestOptions RequestOption] [Runtime RequestOption]

/-- Runs one configuration call on a followed list builder. -/
def FollowedListCall.configure (c : FollowedListCall RequestOption) :
    Config → FollowedListCall RequestOption
  | .BroadcasterID id => c.BroadcasterID id
  | .UserID id => c.UserID id
  | .First n => c.First n
  | .After n => c.After n

/-- Runs one configuration call on a followers list builder. -/
def FollowersListCall.configure (c : FollowersListCall RequestOption) :
    Config → FollowersListCall RequestOption
  | .BroadcasterID id => c.BroadcasterID id
  | .UserID id => c.UserID id
  | .First n => c.First n
  | .After n => c.After n

/-- The query parameter a configuration call names, and the value it gives. -/
def Config.parameter : Config → String × String
  | .BroadcasterID id => ("broadcaster_id", id)
  | .UserID id => ("user_id", id)
  | .First n => ("first", Sprint n)
  | .After n => ("after", Sprint n)

end Chains

/-! ## Contracts on outcomes -/

/-- How many times a trace runs the decoder. -/
def decodes {RequestOption : Type} : List (Event RequestOption) → Nat
  | [] => 0
  | .decodeResponse _ :: t => 1 + decodes t
  | _ :: t => decodes t

/-- Go's convention for a result and an error: exactly one of the two is nil. -/
def Outcome.exclusive {RequestOption C R : Type} (o : Outcome RequestOption C R) : Prop :=
  (o.response.isSome = true ∧ o.err = none) ∨ (o.response = none ∧ o.err.isSome = true)

/-- The propagation policy of a `Do` method, where `answer` is what the transport
returned, `decode` the decoder and `wrap` the typed response built on success. -/
def Outcome.propagates {RequestOption C R T : Type} (o : Outcome RequestOption C R)
    (answer : Except Error Response) (decode : Response → Except Error (Envelope T))
    (wrap : Response → Envelope T → R) : Prop :=
  o.exclusive ∧
  (∀ e, answer = .error e → o.response = none ∧ o.err = some e ∧ decodes o.trace = 0) ∧
  (∀ res e, answer = .ok res → decode res = .error e → o.response = none ∧ o.err = some e) ∧
  (∀ res env, answer = .ok res → decode res = .ok env →
    o.response = some (wrap res env) ∧ o.err = none)

/-! ## A test double: the followed-list scenario -/

/-- The body the server returns in the scenario. -/
def scenarioBody : Body :=
  ⟨"\x7b\"data\":[\x7b\"broadcaster_id\":\"55\",\"broadcaster_login\":\"foo\"," ++
    "\"broadcaster_name\":\"Foo\",\"followed_at\":\"2023-01-01T00:00:00Z\"\x7d]," ++
    "\"pagination\":\x7b\"cursor\":\"abc123\"\x7d\x7d"⟩

def scenarioResponse : Response :=
  ⟨200, [("Content-Type", ["application/json"])], scenarioBody⟩

/-- A transport that always answers with the scenario response. -/
def scenarioClient : Client QueryOption := ⟨fun _ _ _ _ _ => .ok scenarioResponse⟩

/-- A transport that always fails. -/
def brokenClient : Client QueryOption := ⟨fun _ _ _ _ _ => .error ⟨"connection refused"⟩⟩

/-- The envelope the scenario body stands for; 2023-01-01T00:00:00Z is
1672531200 seconds after the epoch. -/
def scenarioEnvelope : Envelope Followed :=
  ⟨[⟨"55", "foo", "Foo", ⟨1672531200⟩⟩], ⟨"abc123"⟩⟩

/-- A decoder double that knows the scenario body and nothing else. -/
def scenarioDecode : Response → Except Error (Envelope Followed) :=
  fun res => if res.Body = scenarioBody then .ok scenarioEnvelope
    else .error ⟨"unexpected end of JSON input"⟩

/-- A decoder double that accepts every body as an empty page. -/
def emptyDecode (T : Type) : Response → Except Error (Envelope T) :=
  fun _ => .ok ⟨[], ⟨""⟩⟩

/-- A decoder double that rejects every body. -/
def failingDecode (T : Type) : Response → Except Error (Envelope T) :=
  fun _ => .error ⟨"invalid character"⟩

/-- The background context. -/
def background : Context := ⟨false⟩

/-! ## Lemmas on slices and decimal formatting -/

section SliceLemmas

variable {α : Type} [Runtime α]

theorem Slice.append_fst_elems (s : Slice α) (xs : List α) :
    (s.append xs).1.elems = s.elems ++ xs := by
  unfold Slice.append
  split <;> rfl

theorem Slice.append_snd_elems (s : Slice α) (xs : List α) :
    (s.append xs).2.elems = s.elems := by
  unfold Slice.append
  split <;> rfl

end SliceLemmas

theorem digitChar_isDigit (d : Nat) (h : d < 10) : (Nat.digitChar d).isDigit = true := by
  interval_cases d <;> decide

theorem digitValue_digitChar (d : Nat) (h : d < 10) : digitValue (Nat.digitChar d) = d := by
  interval_cases d <;> decide

theorem toDigitsCore_isDigit (f : Nat) : ∀ (n : Nat) (ds : List Char),
    (∀ c ∈ ds, c.isDigit = true) → ∀ c ∈ Nat.toDigitsCore 10 f n ds, c.isDigit = true := by
  induction f with
  | zero => intro n ds h; simpa [Nat.toDigitsCore] using h
  | succ f ih =>
    intro n ds h
    have hd : (Nat.digitChar (n % 10)).isDigit = true :=
      digitChar_isDigit _ (Nat.mod_lt _ (by decide))
    have h2 : ∀ c ∈ Nat.digitChar (n % 10) :: ds, c.isDigit = true := by
      intro c hc
      rcases List.mem_cons.1 hc with rfl | hc
      · exact hd
      · exact h c hc
    simp only [Nat.toDigitsCore]
    split
    · exact h2
    · exact ih _ _ h2

theorem toDigits_isDigit (n : Nat) : ∀ c ∈ Nat.toDigits 10 n, c.isDigit = true :=
  toDigitsCore_isDigit _ _ _ (by simp)

theorem foldl_decimal (cs : List Char) : ∀ a : Nat,
    cs.foldl (fun a c => 10 * a + digitValue c) a = a * 10 ^ cs.length + decimalValue cs := by
  induction cs with
  | nil => intro a; simp [decimalValue]
  | cons c cs ih =>
    intro a
    simp only [List.foldl_cons, decimalValue, List.length_cons]
    rw [ih, ih (10 * 0 + digitValue c)]
    ring

theorem decimalValue_cons (c : Char) (cs : List Char) :
    decimalValue (c :: cs) = digitValue c * 10 ^ cs.length + decimalValue cs := by
  simp only [decimalValue, List.foldl_cons]
  rw [foldl_decimal]
  simp [decimalValue]

theorem toDigitsCore_value (f : Nat) : ∀ (n : Nat) (ds : List Char), n < f →
    decimalValue (Nat.toDigitsCore 10 f n ds) = n * 10 ^ ds.length + decimalValue ds := by
  induction f with
  | zero => intro n ds h; omega
  | succ f ih =>
    intro n ds h
    simp only [Nat.toDigitsCore]
    have hv := digitValue_digitChar (n % 10) (Nat.mod_lt _ (by decide))
    split
    · rename_i h0
      rw [decimalValue_cons, hv]
      have : n % 10 = n := by omega
      rw [this]
    · rename_i h0
      rw [ih _ _ (by omega), decimalValue_cons, hv, List.length_cons, pow_succ]
      have hn : n / 10 * 10 + n % 10 = n := by omega
      calc n / 10 * (10 ^ ds.length * 10) + (n % 10 * 10 ^ ds.length + decimalValue ds)
          = (n / 10 * 10 + n % 10) * 10 ^ ds.length + decimalValue ds := by ring
        _ = n * 10 ^ ds.length + decimalValue ds := by rw [hn]

theorem decimalValue_toDigits (n : Nat) : decimalValue (Nat.toDigits 10 n) = n := by
  have h := toDigitsCore_value (n + 1) n [] (Nat.lt_succ_self n)
  simpa [Nat.toDigits, decimalValue] using h

/-- Every character `Sprint` writes is a minus sign or a decimal digit. -/
theorem Sprint_chars (n : Int) : ∀ c ∈ (Sprint n).data, c = '-' ∨ c.isDigit = true := by
  intro c hc
  cases n with
  | ofNat m =>
    right
    exact toDigits_isDigit m c (by simpa [Sprint, Nat.repr, List.asString] using hc)
  | negSucc m =>
    simp only [Sprint, Nat.repr, List.asString, String.data_append, List.mem_append] at hc
    rcases hc with hc | hc
    · left; simpa using hc
    · right; exact toDigits_isDigit _ c hc

/-- Reading back what `Sprint` wrote gives the number: the digits are those of
`n` itself, whatever its size or sign. -/
theorem readDecimal_Sprint (n : Int) : readDecimal (Sprint n) = n := by
  cases n with
  | ofNat m =>
    have hd := toDigits_isDigit m
    simp only [Sprint, Nat.repr, List.asString, readDecimal]
    split
    · rename_i cs heq
      have := hd '-' (by rw [heq]; simp)
      exact absurd this (by decide)
    · simp [decimalValue_toDigits]
  | negSucc m =>
    simp only [Sprint, Nat.repr, List.asString, readDecimal]
    have : ("-" ++ String.mk (Nat.toDigits 10 (m + 1))).data = '-' :: Nat.toDigits 10 (m + 1) := by
      simp [String.data_append]
    rw [this]
    simp [decimalValue_toDigits, Int.negSucc_eq]

/-! ## The chain methods -/

section ChainTheorems

variable {RequestOption : Type} [RequestOptions RequestOption] [Runtime RequestOption]

theorem BroadcasterID_fold (ids : List String) : ∀ c : ChannelsListCall RequestOption,
    (c.BroadcasterID ids).resource = c.resource ∧
    (c.BroadcasterID ids).opts.elems =
      c.opts.elems ++ ids.map (AddQueryParameter "broadcaster_id") := by
  induction ids with
  | nil => intro c; simp [ChannelsListCall.BroadcasterID]
  | cons id ids ih =>
    intro c
    have h := ih { c with opts := (c.opts.append [AddQueryParameter "broadcaster_id" id]).1 }
    simp only [ChannelsListCall.BroadcasterID, List.foldl_cons] at h ⊢
    refine ⟨h.1, ?_⟩
    rw [h.2, Slice.append_fst_elems]
    simp

/-- C1: `ChannelsListCall.BroadcasterID(ids)` returns its receiver (same
resource) with the option sequence equal to the previous options followed by one
`AddQueryParameter("broadcaster_id", id)` per element of `ids`, in list order:
exactly `len(ids)` new options, three for `["1","2","3"]` with values 1, 2, 3 in
that order, and none for the empty list. -/
theorem broadcasterID_appends_one_add_option_per_id (c : ChannelsListCall RequestOption)
    (ids : List String) :
    (c.BroadcasterID ids).resource = c.resource ∧
    (c.BroadcasterID ids).opts.elems =
      c.opts.elems ++ ids.map (AddQueryParameter "broadcaster_id") ∧
    (c.BroadcasterID ids).opts.elems.length = c.opts.elems.length + ids.length ∧
    (c.BroadcasterID ["1", "2", "3"]).opts.elems =
      c.opts.elems ++ [AddQueryParameter "broadcaster_id" "1",
        AddQueryParameter "broadcaster_id" "2", AddQueryParameter "broadcaster_id" "3"] ∧
    (c.BroadcasterID []).opts.elems = c.opts.elems := by
  refine ⟨(BroadcasterID_fold ids c).1, (BroadcasterID_fold ids c).2, ?_, ?_, ?_⟩
  · rw [(BroadcasterID_fold ids c).2]; simp
  · rw [(BroadcasterID_fold _ c).2]; rfl
  · rw [(BroadcasterID_fold _ c).2]; simp

theorem FollowedListCall_configure_spec (c : FollowedListCall RequestOption) (k : Config) :
    (c.configure k).resource = c.resource ∧
    (c.configure k).opts.elems =
      c.opts.elems ++ [SetQueryParameter k.parameter.1 k.parameter.2] := by
  cases k <;>
    simp [FollowedListCall.configure, FollowedListCall.BroadcasterID, FollowedListCall.UserID,
      FollowedListCall.First, FollowedListCall.After, Config.parameter, Slice.append_fst_elems]

theorem FollowersListCall_configure_spec (c : FollowersListCall RequestOption) (k : Config) :
    (c.configure k).resource = c.resource ∧
    (c.configure k).opts.elems =
      c.opts.elems ++ [SetQueryParameter k.parameter.1 k.parameter.2] := by
  cases k <;>
    simp [FollowersListCall.configure, FollowersListCall.BroadcasterID,
      FollowersListCall.UserID, FollowersListCall.First, FollowersListCall.After,
      Config.parameter, Slice.append_fst_elems]

theorem FollowedListCall_chain_spec (ks : List Config) : ∀ c : FollowedListCall RequestOption,
    (ks.foldl FollowedListCall.configure c).resource = c.resource ∧
    (ks.foldl FollowedListCall.configure c).opts.elems = c.opts.elems ++
      ks.map (fun k => (SetQueryParameter k.parameter.1 k.parameter.2 : RequestOption)) := by
  induction ks with
  | nil => intro c; simp
  | cons k ks ih =>
    intro c
    have h := ih (c.configure k)
    have hk := FollowedListCall_configure_spec c k
    simp only [List.foldl_cons, List.map_cons]
    refine ⟨h.1.trans hk.1, ?_⟩
    rw [h.2, hk.2]
    simp

theorem FollowersListCall_chain_spec (ks : List Config) :
    ∀ c : FollowersListCall RequestOption,
    (ks.foldl FollowersListCall.configure c).resource = c.resource ∧
    (ks.foldl FollowersListCall.configure c).opts.elems = c.opts.elems ++
      ks.map (fun k => (SetQueryParameter k.parameter.1 k.parameter.2 : RequestOption)) := by
  induction ks with
  | nil => intro c; simp
  | cons k ks ih =>
    intro c
    have h := ih (c.configure k)
    have hk := FollowersListCall_configure_spec c k
    simp only [List.foldl_cons, List.map_cons]
    refine ⟨h.1.trans hk.1, ?_⟩
    rw [h.2, hk.2]
    simp

/-- C9: `List()` on `FollowedResource` and on `FollowersResource` gives a
builder with no options; each of `BroadcasterID`, `UserID`, `First` and `After`
returns its receiver with the previous option sequence followed by exactly one
new `SetQueryParameter` option; so a chain of `k` configuration calls, which are
total functions, leaves exactly `k` options in call order. -/
theorem chain_stores_one_set_option_per_call (rf : FollowedResource RequestOption)
    (rs : FollowersResource RequestOption) (cf : FollowedListCall RequestOption)
    (cs : FollowersListCall RequestOption) (k : Config) (ks : List Config) :
    (rf.List.resource = rf ∧ rf.List.opts.elems = []) ∧
    (rs.List.resource = rs ∧ rs.List.opts.elems = []) ∧
    ((cf.configure k).resource = cf.resource ∧
      (cf.configure k).opts.elems =
        cf.opts.elems ++ [SetQueryParameter k.parameter.1 k.parameter.2]) ∧
    ((cs.configure k).resource = cs.resource ∧
      (cs.configure k).opts.elems =
        cs.opts.elems ++ [SetQueryParameter k.parameter.1 k.parameter.2]) ∧
    ((ks.foldl FollowedListCall.configure rf.List).resource = rf ∧
      (ks.foldl FollowedListCall.configure rf.List).opts.elems =
        ks.map (fun k => (SetQueryParameter k.parameter.1 k.parameter.2 : RequestOption)) ∧
      (ks.foldl FollowedListCall.configure rf.List).opts.elems.length = ks.length) ∧
    ((ks.foldl FollowersListCall.configure rs.List).resource = rs ∧
      (ks.foldl FollowersListCall.configure rs.List).opts.elems =
        ks.map (fun k => (SetQueryParameter k.parameter.1 k.parameter.2 : RequestOption)) ∧
      (ks.foldl FollowersListCall.configure rs.List).opts.elems.length = ks.length) := by
  have hf := FollowedListCall_chain_spec ks rf.List
  have hs := FollowersListCall_chain_spec ks rs.List
  have ef : rf.List.opts.elems = [] := rfl
  have es : rs.List.opts.elems = [] := rfl
  refine ⟨⟨rfl, rfl⟩, ⟨rfl, rfl⟩, FollowedListCall_configure_spec cf k,
    FollowersListCall_configure_spec cs k, ⟨hf.1, ?_, ?_⟩, ⟨hs.1, ?_, ?_⟩⟩
  · rw [hf.2, ef]; simp
  · rw [hf.2, ef]; simp
  · rw [hs.2, es]; simp
  · rw [hs.2, es]; simp

/-- C5: for every integer `n`, `FollowedListCall.First(n)` and
`FollowersListCall.First(n)` append exactly one option
`SetQueryParameter("first", d)`, where `d` is the decimal string of `n` itself
(reading `d` back gives `n`): 0, negative numbers and numbers above 100 are
written as they are, neither clamped to 1..100 nor rejected. -/
theorem First_appends_decimal_of_any_integer (cf : FollowedListCall RequestOption)
    (cs : FollowersListCall RequestOption) (n : Int) :
    (cf.First n).opts.elems = cf.opts.elems ++ [SetQueryParameter "first" (Sprint n)] ∧
    (cs.First n).opts.elems = cs.opts.elems ++ [SetQueryParameter "first" (Sprint n)] ∧
    readDecimal (Sprint n) = n ∧
    Sprint 0 = "0" ∧ Sprint (-1) = "-1" ∧ Sprint 100 = "100" ∧ Sprint 101 = "101" := by
  refine ⟨?_, ?_, readDecimal_Sprint n, by decide, by decide, by decide, by decide⟩
  · simp [FollowedListCall.First, Slice.append_fst_elems]
  · simp [FollowersListCall.First, Slice.append_fst_elems]

end ChainTheorems

/-! ## Execution -/

theorem Outcome.propagates_of {RequestOption C R T : Type} {o : Outcome RequestOption C R}
    {answer : Except Error Response} {decode : Response → Except Error (Envelope T)}
    {wrap : Response → Envelope T → R}
    (h : match answer with
      | .error e => o.response = none ∧ o.err = some e ∧ decodes o.trace = 0
      | .ok res =>
        match decode res with
        | .error e => o.response = none ∧ o.err = some e
        | .ok env => o.response = some (wrap res env) ∧ o.err = none) :
    o.propagates answer decode wrap := by
  unfold Outcome.propagates Outcome.exclusive
  cases answer with
  | error e =>
    simp only at h
    refine ⟨Or.inr ⟨h.1, by simp [h.2.1]⟩, ?_, ?_, ?_⟩
    · intro e1 h1; cases h1; exact h
    · intro res e1 h1; cases h1
    · intro res env h1; cases h1
  | ok res =>
    simp only at h
    cases hd : decode res with
    | error e =>
      rw [hd] at h
      simp only at h
      refine ⟨Or.inr ⟨h.1, by simp [h.2]⟩, ?_, ?_, ?_⟩
      · intro e1 h1; cases h1
      · intro res1 e1 h1 h2; cases h1; rw [hd] at h2; cases h2; exact h
      · intro res1 env h1 h2; cases h1; rw [hd] at h2; cases h2
    | ok env =>
      rw [hd] at h
      simp only at h
      refine ⟨Or.inl ⟨by simp [h.1], h.2⟩, ?_, ?_, ?_⟩
      · intro e1 h1; cases h1
      · intro res1 e1 h1 h2; cases h1; rw [hd] at h2; cases h2
      · intro res1 env1 h1 h2; cases h1; rw [hd] at h2; cases h2; exact h

section DoLemmas

variable {RequestOption : Type} [Runtime RequestOption]

theorem ChannelsListCall_Do_cases (dec : Response → Except Error (Envelope Channel))
    (c : ChannelsListCall RequestOption) (ctx : Context) (opts : Slice RequestOption) :
    let o := ChannelsListCall.Do dec c ctx opts
    let sent := Event.doRequest ctx MethodGet "/channels" none (opts.elems ++ c.opts.elems)
    o.self = c ∧
    match c.resource.client.doRequest ctx MethodGet "/channels" none
      (opts.elems ++ c.opts.elems) with
    | .error e => o.response = none ∧ o.err = some e ∧ o.trace = [sent]
    | .ok res =>
      o.trace = [sent, .decodeResponse res, .close res.Body] ∧
      match dec res with
      | .error e => o.response = none ∧ o.err = some e
      | .ok env => o.response = some ⟨res.Header, env.Data⟩ ∧ o.err = none := by
  simp only [ChannelsListCall.Do, Slice.append_fst_elems]
  cases h : c.resource.client.doRequest ctx MethodGet "/channels" none
    (opts.elems ++ c.opts.elems) with
  | error e => simp
  | ok res => cases h2 : dec res <;> simp [h2]

theorem FollowedListCall_Do_cases (dec : Response → Except Error (Envelope Followed))
    (c : FollowedListCall RequestOption) (ctx : Context) (opts : Slice RequestOption) :
    let o := FollowedListCall.Do dec c ctx opts
    let sent := Event.doRequest ctx MethodGet "/channels/followed" none
      (c.opts.elems ++ opts.elems)
    (o.self.resource = c.resource ∧ o.self.opts.elems = c.opts.elems) ∧
    match c.resource.client.doRequest ctx MethodGet "/channels/followed" none
      (c.opts.elems ++ opts.elems) with
    | .error e => o.response = none ∧ o.err = some e ∧ o.trace = [sent]
    | .ok res =>
      o.trace = [sent, .decodeResponse res, .close res.Body] ∧
      match dec res with
      | .error e => o.response = none ∧ o.err = some e
      | .ok env =>
        o.response = some ⟨res.Header, env.Data, env.Pagination.Cursor⟩ ∧ o.err = none := by
  simp only [FollowedListCall.Do, Slice.append_fst_elems]
  cases h : c.resource.client.doRequest ctx MethodGet "/channels/followed" none
    (c.opts.elems ++ opts.elems) with
  | error e => simp [Slice.append_snd_elems]
  | ok res => cases h2 : dec res <;> simp [h2, Slice.append_snd_elems]

theorem FollowersListCall_Do_cases (dec : Response → Except Error (Envelope Follower))
    (c : FollowersListCall RequestOption) (ctx : Context) (opts : Slice RequestOption) :
    let o := FollowersListCall.Do dec c ctx opts
    let sent := Event.doRequest ctx MethodGet "/channels/followers" none
      (c.opts.elems ++ opts.elems)
    (o.self.resource = c.resource ∧ o.self.opts.elems = c.opts.elems) ∧
    match c.resource.client.doRequest ctx MethodGet "/channels/followers" none
      (c.opts.elems ++ opts.elems) with
    | .error e => o.response = none ∧ o.err = some e ∧ o.trace = [sent]
    | .ok res =>
      o.trace = [sent, .decodeResponse res, .close res.Body] ∧
      match dec res with
      | .error e => o.response = none ∧ o.err = some e
      | .ok env =>
        o.response = some ⟨res.Header, env.Data, env.Pagination.Cursor⟩ ∧ o.err = none := by
  simp only [FollowersListCall.Do, Slice.append_fst_elems]
  cases h : c.resource.client.doRequest ctx MethodGet "/channels/followers" none
    (c.opts.elems ++ opts.elems) with
  | error e => simp [Slice.append_snd_elems]
  | ok res => cases h2 : dec res <;> simp [h2, Slice.append_snd_elems]

theorem ChannelsListCall_Do_requests (dec : Response → Except Error (Envelope Channel))
    (c : ChannelsListCall RequestOption) (ctx : Context) (opts : Slice RequestOption) :
    requests (ChannelsListCall.Do dec c ctx opts).trace =
      [("GET", "/channels", none, opts.elems ++ c.opts.elems)] := by
  have h := (ChannelsListCall_Do_cases dec c ctx opts).2
  simp only at h
  split at h
  · rw [h.2.2]; simp [requests, MethodGet]
  · rw [h.1]; simp [requests, MethodGet]

theorem FollowedListCall_Do_requests (dec : Response → Except Error (Envelope Followed))
    (c : FollowedListCall RequestOption) (ctx : Context) (opts : Slice RequestOption) :
    requests (FollowedListCall.Do dec c ctx opts).trace =
      [("GET", "/channels/followed", none, c.opts.elems ++ opts.elems)] := by
  have h := (FollowedListCall_Do_cases dec c ctx opts).2
  simp only at h
  split at h
  · rw [h.2.2]; simp [requests, MethodGet]
  · rw [h.1]; simp [requests, MethodGet]

theorem FollowersListCall_Do_requests (dec : Response → Except Error (Envelope Follower))
    (c : FollowersListCall RequestOption) (ctx : Context) (opts : Slice RequestOption) :
    requests (FollowersListCall.Do dec c ctx opts).trace =
      [("GET", "/channels/followers", none, c.opts.elems ++ opts.elems)] := by
  have h := (FollowersListCall_Do_cases dec c ctx opts).2
  simp only at h
  split at h
  · rw [h.2.2]; simp [requests, MethodGet]
  · rw [h.1]; simp [requests, MethodGet]

/-- C10: every run of each of the three `Do` methods calls the transport exactly
once, whatever the outcome (so never a second time after a failure), with method
GET, a nil body, the fixed path of the resource, and an option sequence that is
a rearrangement of the stored options followed by the extra options: each of
them exactly once and nothing else. -/
theorem Do_calls_transport_once_with_all_options
    (decC : Response → Except Error (Envelope Channel))
    (decF : Response → Except Error (Envelope Followed))
    (decS : Response → Except Error (Envelope Follower))
    (cc : ChannelsListCall RequestOption) (cf : FollowedListCall RequestOption)
    (cs : FollowersListCall RequestOption) (ctx : Context) (opts : Slice RequestOption) :
    (∃ sent, requests (ChannelsListCall.Do decC cc ctx opts).trace =
        [("GET", "/channels", none, sent)] ∧ sent.Perm (cc.opts.elems ++ opts.elems)) ∧
    (∃ sent, requests (FollowedListCall.Do decF cf ctx opts).trace =
        [("GET", "/channels/followed", none, sent)] ∧
        sent.Perm (cf.opts.elems ++ opts.elems)) ∧
    (∃ sent, requests (FollowersListCall.Do decS cs ctx opts).trace =
        [("GET", "/channels/followers", none, sent)] ∧
        sent.Perm (cs.opts.elems ++ opts.elems)) :=
  ⟨⟨_, ChannelsListCall_Do_requests decC cc ctx opts, List.perm_append_comm⟩,
    ⟨_, FollowedListCall_Do_requests decF cf ctx opts, List.Perm.refl _⟩,
    ⟨_, FollowersListCall_Do_requests decS cs ctx opts, List.Perm.refl _⟩⟩

/-- C6: each of the three `Do` methods leaves the stored option sequence of its
receiver as it was, on success and on error alike (the backing array past the
length may be written, the sequence is not), so a second `Do` on the same
builder sends the stored options and its own extra options only. -/
theorem Do_leaves_stored_options_unchanged
    (decC : Response → Except Error (Envelope Channel))
    (decF : Response → Except Error (Envelope Followed))
    (decS : Response → Except Error (Envelope Follower))
    (cc : ChannelsListCall RequestOption) (cf : FollowedListCall RequestOption)
    (cs : FollowersListCall RequestOption) (ctx : Context)
    (opts later : Slice RequestOption) :
    ((ChannelsListCall.Do decC cc ctx opts).self.resource = cc.resource ∧
      (ChannelsListCall.Do decC cc ctx opts).self.opts.elems = cc.opts.elems ∧
      requests (ChannelsListCall.Do decC
        (ChannelsListCall.Do decC cc ctx opts).self ctx later).trace =
        [("GET", "/channels", none, later.elems ++ cc.opts.elems)]) ∧
    ((FollowedListCall.Do decF cf ctx opts).self.resource = cf.resource ∧
      (FollowedListCall.Do decF cf ctx opts).self.opts.elems = cf.opts.elems ∧
      requests (FollowedListCall.Do decF
        (FollowedListCall.Do decF cf ctx opts).self ctx later).trace =
        [("GET", "/channels/followed", none, cf.opts.elems ++ later.elems)]) ∧
    ((FollowersListCall.Do decS cs ctx opts).self.resource = cs.resource ∧
      (FollowersListCall.Do decS cs ctx opts).self.opts.elems = cs.opts.elems ∧
      requests (FollowersListCall.Do decS
        (FollowersListCall.Do decS cs ctx opts).self ctx later).trace =
        [("GET", "/channels/followers", none, cs.opts.elems ++ later.elems)]) := by
  have hc := (ChannelsListCall_Do_cases decC cc ctx opts).1
  have hf := (FollowedListCall_Do_cases decF cf ctx opts).1
  have hs := (FollowersListCall_Do_cases decS cs ctx opts).1
  simp only at hc hf hs
  refine ⟨⟨by rw [hc], by rw [hc], ?_⟩, ⟨hf.1, hf.2, ?_⟩, ⟨hs.1, hs.2, ?_⟩⟩
  · rw [ChannelsListCall_Do_requests, hc]
  · rw [FollowedListCall_Do_requests, hf.2]
  · rw [FollowersListCall_Do_requests, hs.2]

theorem ChannelsListCall_Do_propagates (dec : Response → Except Error (Envelope Channel))
    (c : ChannelsListCall RequestOption) (ctx : Context) (opts : Slice RequestOption) :
    (ChannelsListCall.Do dec c ctx opts).propagates
      (c.resource.client.doRequest ctx MethodGet "/channels" none (opts.elems ++ c.opts.elems))
      dec (fun res env => ⟨res.Header, env.Data⟩) := by
  have h := (ChannelsListCall_Do_cases dec c ctx opts).2
  simp only at h
  apply Outcome.propagates_of
  split
  · rename_i e he
    rw [he] at h
    rw [h.2.2]
    exact ⟨h.1, h.2.1, rfl⟩
  · rename_i res he
    rw [he] at h
    simp only at h
    split
    · rename_i e hd
      rw [hd] at h
      exact h.2
    · rename_i env hd
      rw [hd] at h
      exact h.2

theorem FollowedListCall_Do_propagates (dec : Response → Except Error (Envelope Followed))
    (c : FollowedListCall RequestOption) (ctx : Context) (opts : Slice RequestOption) :
    (FollowedListCall.Do dec c ctx opts).propagates
      (c.resource.client.doRequest ctx MethodGet "/channels/followed" none
        (c.opts.elems ++ opts.elems))
      dec (fun res env => ⟨res.Header, env.Data, env.Pagination.Cursor⟩) := by
  have h := (FollowedListCall_Do_cases dec c ctx opts).2
  simp only at h
  apply Outcome.propagates_of
  split
  · rename_i e he
    rw [he] at h
    rw [h.2.2]
    exact ⟨h.1, h.2.1, rfl⟩
  · rename_i res he
    rw [he] at h
    simp only at h
    split
    · rename_i e hd
      rw [hd] at h
      exact h.2
    · rename_i env hd
      rw [hd] at h
      exact h.2

theorem FollowersListCall_Do_propagates (dec : Response → Except Error (Envelope Follower))
    (c : FollowersListCall RequestOption) (ctx : Context) (opts : Slice RequestOption) :
    (FollowersListCall.Do dec c ctx opts).propagates
      (c.resource.client.doRequest ctx MethodGet "/channels/followers" none
        (c.opts.elems ++ opts.elems))
      dec (fun res env => ⟨res.Header, env.Data, env.Pagination.Cursor⟩) := by
  have h := (FollowersListCall_Do_cases dec c ctx opts).2
  simp only at h
  apply Outcome.propagates_of
  split
  · rename_i e he
    rw [he] at h
    rw [h.2.2]
    exact ⟨h.1, h.2.1, rfl⟩
  · rename_i res he
    rw [he] at h
    simp only at h
    split
    · rename_i e hd
      rw [hd] at h
      exact h.2
    · rename_i env hd
      rw [hd] at h
      exact h.2

/-- C3: each of the three `Do` methods returns either a non-nil response with a
nil error or a nil response with a non-nil error, never both and never neither:
when `doRequest` fails it returns nil and that error without running the
decoder, when `decodeResponse` fails it returns nil and that error, and
otherwise it returns the typed response and a nil error. -/
theorem Do_returns_response_or_error
    (decC : Response → Except Error (Envelope Channel))
    (decF : Response → Except Error (Envelope Followed))
    (decS : Response → Except Error (Envelope Follower))
    (cc : ChannelsListCall RequestOption) (cf : FollowedListCall RequestOption)
    (cs : FollowersListCall RequestOption) (ctx : Context) (opts : Slice RequestOption) :
    (ChannelsListCall.Do decC cc ctx opts).propagates
      (cc.resource.client.doRequest ctx MethodGet "/channels" none
        (opts.elems ++ cc.opts.elems))
      decC (fun res env => ⟨res.Header, env.Data⟩) ∧
    (FollowedListCall.Do decF cf ctx opts).propagates
      (cf.resource.client.doRequest ctx MethodGet "/channels/followed" none
        (cf.opts.elems ++ opts.elems))
      decF (fun res env => ⟨res.Header, env.Data, env.Pagination.Cursor⟩) ∧
    (FollowersListCall.Do decS cs ctx opts).propagates
      (cs.resource.client.doRequest ctx MethodGet "/channels/followers" none
        (cs.opts.elems ++ opts.elems))
      decS (fun res env => ⟨res.Header, env.Data, env.Pagination.Cursor⟩) :=
  ⟨ChannelsListCall_Do_propagates decC cc ctx opts,
    FollowedListCall_Do_propagates decF cf ctx opts,
    FollowersListCall_Do_propagates decS cs ctx opts⟩

/-- C8: in each of the three `Do` methods, when the transport returns a
response its body is closed exactly once by the time `Do` returns, whether the
decoder then succeeds or fails, and that is the only `Close`; when the transport
returns an error `Do` closes nothing. -/
theorem Do_closes_body_exactly_once
    (decC : Response → Except Error (Envelope Channel))
    (decF : Response → Except Error (Envelope Followed))
    (decS : Response → Except Error (Envelope Follower))
    (cc : ChannelsListCall RequestOption) (cf : FollowedListCall RequestOption)
    (cs : FollowersListCall RequestOption) (ctx : Context) (opts : Slice RequestOption) :
    ((∀ res, cc.resource.client.doRequest ctx MethodGet "/channels" none
          (opts.elems ++ cc.opts.elems) = .ok res →
        closeCount res.Body (ChannelsListCall.Do decC cc ctx opts).trace = 1 ∧
        closes (ChannelsListCall.Do decC cc ctx opts).trace = 1) ∧
      (∀ e, cc.resource.client.doRequest ctx MethodGet "/channels" none
          (opts.elems ++ cc.opts.elems) = .error e →
        closes (ChannelsListCall.Do decC cc ctx opts).trace = 0)) ∧
    ((∀ res, cf.resource.client.doRequest ctx MethodGet "/channels/followed" none
          (cf.opts.elems ++ opts.elems) = .ok res →
        closeCount res.Body (FollowedListCall.Do decF cf ctx opts).trace = 1 ∧
        closes (FollowedListCall.Do decF cf ctx opts).trace = 1) ∧
      (∀ e, cf.resource.client.doRequest ctx MethodGet "/channels/followed" none
          (cf.opts.elems ++ opts.elems) = .error e →
        closes (FollowedListCall.Do decF cf ctx opts).trace = 0)) ∧
    ((∀ res, cs.resource.client.doRequest ctx MethodGet "/channels/followers" none
          (cs.opts.elems ++ opts.elems) = .ok res →
        closeCount res.Body (FollowersListCall.Do decS cs ctx opts).trace = 1 ∧
        closes (FollowersListCall.Do decS cs ctx opts).trace = 1) ∧
      (∀ e, cs.resource.client.doRequest ctx MethodGet "/channels/followers" none
          (cs.opts.elems ++ opts.elems) = .error e →
        closes (FollowersListCall.Do decS cs ctx opts).trace = 0)) := by
  have hc := (ChannelsListCall_Do_cases decC cc ctx opts).2
  have hf := (FollowedListCall_Do_cases decF cf ctx opts).2
  have hs := (FollowersListCall_Do_cases decS cs ctx opts).2
  simp only at hc hf hs
  refine ⟨⟨?_, ?_⟩, ⟨?_, ?_⟩, ⟨?_, ?_⟩⟩
  · intro res he
    rw [he] at hc
    rw [hc.1]
    simp [closes, closeCount]
  · intro e he
    rw [he] at hc
    rw [hc.2.2]
    simp [closes]
  · intro res he
    rw [he] at hf
    rw [hf.1]
    simp [closes, closeCount]
  · intro e he
    rw [he] at hf
    rw [hf.2.2]
    simp [closes]
  · intro res he
    rw [he] at hs
    rw [hs.1]
    simp [closes, closeCount]
  · intro e he
    rw [he] at hs
    rw [hs.2.2]
    simp [closes]

end DoLemmas

/-! ## Scenarios -/

section Scenarios

variable {RequestOption : Type} [RequestOptions RequestOption] [Runtime RequestOption]

/-- C7: `Followed.List().UserID("100").First(50).Do(ctx)` sends the options
set user_id=100, set first=50 in that order, and whenever the transport answers
`res` and its body decodes to an envelope, `FollowedListCall.Do` returns a
response with the envelope's data sequence, the envelope's cursor (the empty
string when it has none) and the header of `res`, with a nil error; in the
scenario that is one Followed record with BroadcasterID 55 and cursor abc123. -/
theorem Followed_List_Do_returns_envelope
    (dec : Response → Except Error (Envelope Followed)) (r : FollowedResource RequestOption)
    (c : FollowedListCall RequestOption) (ctx : Context) (opts : Slice RequestOption)
    (res : Response) (env : Envelope Followed)
    (hres : c.resource.client.doRequest ctx MethodGet "/channels/followed" none
      (c.opts.elems ++ opts.elems) = .ok res)
    (henv : dec res = .ok env) :
    requests (FollowedListCall.Do dec ((r.List.UserID "100").First 50) ctx Slice.nil).trace =
      [("GET", "/channels/followed", none,
        [SetQueryParameter "user_id" "100", SetQueryParameter "first" "50"])] ∧
    (FollowedListCall.Do dec c ctx opts).response =
      some ⟨res.Header, env.Data, env.Pagination.Cursor⟩ ∧
    (FollowedListCall.Do dec c ctx opts).err = none ∧
    (FollowedListCall.Do scenarioDecode
        (((NewFollowedResource scenarioClient).List.UserID "100").First 50)
        background Slice.nil).response =
      some ⟨scenarioResponse.Header, [⟨"55", "foo", "Foo", ⟨1672531200⟩⟩], "abc123"⟩ := by
  have hp := (FollowedListCall_Do_propagates dec c ctx opts).2.2.2 res env hres henv
  have hs := (FollowedListCall_Do_propagates scenarioDecode
    (((NewFollowedResource scenarioClient).List.UserID "100").First 50)
    background Slice.nil).2.2.2 scenarioResponse scenarioEnvelope rfl rfl
  refine ⟨?_, hp.1, hp.2, hs.1⟩
  rw [FollowedListCall_Do_requests]
  have h50 : Sprint 50 = "50" := by decide
  simp [FollowedListCall.First, FollowedListCall.UserID, FollowedResource.List,
    Slice.append_fst_elems, Slice.nil, h50]

end Scenarios

/-- Witness for C7: the scenario itself, with the transport and decoder doubles. -/
theorem Followed_List_Do_returns_envelope_witness :
    scenarioDecode scenarioResponse = .ok scenarioEnvelope ∧
    (FollowedListCall.Do scenarioDecode
        (((NewFollowedResource scenarioClient).List.UserID "100").First 50)
        background Slice.nil).response =
      some ⟨scenarioResponse.Header, scenarioEnvelope.Data, "abc123"⟩ ∧
    (FollowedListCall.Do scenarioDecode
        (((NewFollowedResource scenarioClient).List.UserID "100").First 50)
        background Slice.nil).err = none :=
  ⟨rfl,
    (Followed_List_Do_returns_envelope scenarioDecode (NewFollowedResource scenarioClient)
      (((NewFollowedResource scenarioClient).List.UserID "100").First 50)
      background Slice.nil scenarioResponse scenarioEnvelope rfl rfl).2.1,
    (Followed_List_Do_returns_envelope scenarioDecode (NewFollowedResource scenarioClient)
      (((NewFollowedResource scenarioClient).List.UserID "100").First 50)
      background Slice.nil scenarioResponse scenarioEnvelope rfl rfl).2.2.1⟩

/-- Witness for C3: a failing transport, a failing decoder and a full success. -/
theorem Do_returns_response_or_error_witness :
    ((ChannelsListCall.Do (emptyDecode Channel) (NewChannelsResource brokenClient).List
        background Slice.nil).response = none ∧
      (ChannelsListCall.Do (emptyDecode Channel) (NewChannelsResource brokenClient).List
        background Slice.nil).err = some ⟨"connection refused"⟩ ∧
      decodes (ChannelsListCall.Do (emptyDecode Channel) (NewChannelsResource brokenClient).List
        background Slice.nil).trace = 0) ∧
    ((FollowedListCall.Do (failingDecode Followed) (NewFollowedResource scenarioClient).List
        background Slice.nil).response = none ∧
      (FollowedListCall.Do (failingDecode Followed) (NewFollowedResource scenarioClient).List
        background Slice.nil).err = some ⟨"invalid character"⟩) ∧
    ((FollowersListCall.Do (emptyDecode Follower) (NewFollowersResource scenarioClient).List
        background Slice.nil).response = some ⟨scenarioResponse.Header, [], ""⟩ ∧
      (FollowersListCall.Do (emptyDecode Follower) (NewFollowersResource scenarioClient).List
        background Slice.nil).err = none) :=
  ⟨(Do_returns_response_or_error (emptyDecode Channel) (failingDecode Followed)
      (emptyDecode Follower) (NewChannelsResource brokenClient).List
      (NewFollowedResource scenarioClient).List (NewFollowersResource scenarioClient).List
      background Slice.nil).1.2.1 ⟨"connection refused"⟩ rfl,
    (Do_returns_response_or_error (emptyDecode Channel) (failingDecode Followed)
      (emptyDecode Follower) (NewChannelsResource brokenClient).List
      (NewFollowedResource scenarioClient).List (NewFollowersResource scenarioClient).List
      background Slice.nil).2.1.2.2.1 scenarioResponse ⟨"invalid character"⟩ rfl rfl,
    (Do_returns_response_or_error (emptyDecode Channel) (failingDecode Followed)
      (emptyDecode Follower) (NewChannelsResource brokenClient).List
      (NewFollowedResource scenarioClient).List (NewFollowersResource scenarioClient).List
      background Slice.nil).2.2.2.2.2 scenarioResponse ⟨[], ⟨""⟩⟩ rfl rfl⟩

/-- Witness for C8: one `Close` when the transport answers, both when the decoder
fails and when it succeeds, and none when the transport fails. -/
theorem Do_closes_body_exactly_once_witness :
    closes (ChannelsListCall.Do (emptyDecode Channel) (NewChannelsResource brokenClient).List
      background Slice.nil).trace = 0 ∧
    (closeCount scenarioBody (FollowedListCall.Do (failingDecode Followed)
        (NewFollowedResource scenarioClient).List background Slice.nil).trace = 1 ∧
      closes (FollowedListCall.Do (failingDecode Followed)
        (NewFollowedResource scenarioClient).List background Slice.nil).trace = 1) ∧
    (closeCount scenarioBody (FollowersListCall.Do (emptyDecode Follower)
        (NewFollowersResource scenarioClient).List background Slice.nil).trace = 1 ∧
      closes (FollowersListCall.Do (emptyDecode Follower)
        (NewFollowersResource scenarioClient).List background Slice.nil).trace = 1) :=
  ⟨(Do_closes_body_exactly_once (emptyDecode Channel) (failingDecode Followed)
      (emptyDecode Follower) (NewChannelsResource brokenClient).List
      (NewFollowedResource scenarioClient).List (NewFollowersResource scenarioClient).List
      background Slice.nil).1.2 ⟨"connection refused"⟩ rfl,
    (Do_closes_body_exactly_once (emptyDecode Channel) (failingDecode Followed)
      (emptyDecode Follower) (NewChannelsResource brokenClient).List
      (NewFollowedResource scenarioClient).List (NewFollowersResource scenarioClient).List
      background Slice.nil).2.1.1 scenarioResponse rfl,
    (Do_closes_body_exactly_once (emptyDecode Channel) (failingDecode Followed)
      (emptyDecode Follower) (NewChannelsResource brokenClient).List
      (NewFollowedResource scenarioClient).List (NewFollowersResource scenarioClient).List
      background Slice.nil).2.2.1 scenarioResponse rfl⟩

/-! ## Merge order and the cursor -/

/-- The frame property of `Do` is not vacuous: after three chain calls under the
doubling policy the builder has one spare cell, and `FollowedListCall.Do` with
one extra option writes that option into the spare cell while the stored
sequence stays the same. -/
theorem Do_writes_only_past_the_length :
    ((((NewFollowedResource scenarioClient).List.UserID "100").First 50).After 7).opts.spare =
      [QueryOption.Nil] ∧
    (FollowedListCall.Do scenarioDecode
      ((((NewFollowedResource scenarioClient).List.UserID "100").First 50).After 7) background
      ⟨[QueryOption.SetQueryParameter "first" "5"], []⟩).self.opts.spare =
      [QueryOption.SetQueryParameter "first" "5"] ∧
    (FollowedListCall.Do scenarioDecode
      ((((NewFollowedResource scenarioClient).List.UserID "100").First 50).After 7) background
      ⟨[QueryOption.SetQueryParameter "first" "5"], []⟩).self.opts.elems =
      [QueryOption.SetQueryParameter "user_id" "100",
        QueryOption.SetQueryParameter "first" "50",
        QueryOption.SetQueryParameter "after" "7"] := by
  decide

/-- C2: the merge order is not the same in the three `Do` methods.  For stored
options `s` and extra options `e`, `ChannelsListCall.Do` hands the transport `e`
followed by `s`, while `FollowedListCall.Do` and `FollowersListCall.Do` hand it
`s` followed by `e`.  With one stored option `broadcaster_id=1` and the extra
option set `broadcaster_id=2`, the channels call sends the extra option first
and the followed call sends it last. -/
theorem Do_merge_order_differs_between_resources
    (decC : Response → Except Error (Envelope Channel))
    (decF : Response → Except Error (Envelope Followed))
    (decS : Response → Except Error (Envelope Follower))
    (cc : ChannelsListCall QueryOption) (cf : FollowedListCall QueryOption)
    (cs : FollowersListCall QueryOption) (ctx : Context) (opts : Slice QueryOption) :
    requests (ChannelsListCall.Do decC cc ctx opts).trace =
      [("GET", "/channels", none, opts.elems ++ cc.opts.elems)] ∧
    requests (FollowedListCall.Do decF cf ctx opts).trace =
      [("GET", "/channels/followed", none, cf.opts.elems ++ opts.elems)] ∧
    requests (FollowersListCall.Do decS cs ctx opts).trace =
      [("GET", "/channels/followers", none, cs.opts.elems ++ opts.elems)] ∧
    requests (ChannelsListCall.Do (emptyDecode Channel)
        ((NewChannelsResource scenarioClient).List.BroadcasterID ["1"]) background
        ⟨[QueryOption.SetQueryParameter "broadcaster_id" "2"], []⟩).trace =
      [("GET", "/channels", none,
        [QueryOption.SetQueryParameter "broadcaster_id" "2",
          QueryOption.AddQueryParameter "broadcaster_id" "1"])] ∧
    requests (FollowedListCall.Do (emptyDecode Followed)
        ((NewFollowedResource scenarioClient).List.BroadcasterID "1") background
        ⟨[QueryOption.SetQueryParameter "broadcaster_id" "2"], []⟩).trace =
      [("GET", "/channels/followed", none,
        [QueryOption.SetQueryParameter "broadcaster_id" "1",
          QueryOption.SetQueryParameter "broadcaster_id" "2"])] ∧
    (requests (ChannelsListCall.Do (emptyDecode Channel)
        ⟨NewChannelsResource scenarioClient,
          ⟨[QueryOption.AddQueryParameter "broadcaster_id" "1"], []⟩⟩ background
        ⟨[QueryOption.SetQueryParameter "broadcaster_id" "2"], []⟩).trace).map
        (fun q => q.2.2.2) ≠
      (requests (FollowedListCall.Do (emptyDecode Followed)
        ⟨NewFollowedResource scenarioClient,
          ⟨[QueryOption.AddQueryParameter "broadcaster_id" "1"], []⟩⟩ background
        ⟨[QueryOption.SetQueryParameter "broadcaster_id" "2"], []⟩).trace).map
        (fun q => q.2.2.2) :=
  ⟨ChannelsListCall_Do_requests decC cc ctx opts,
    FollowedListCall_Do_requests decF cf ctx opts,
    FollowersListCall_Do_requests decS cs ctx opts, by decide, by decide, by decide⟩

theorem Sprint_ne_abc123 (n : Int) : Sprint n ≠ "abc123" := by
  intro h
  have hc := Sprint_chars n 'a' (by rw [h]; decide)
  rcases hc with hc | hc
  · exact absurd hc (by decide)
  · exact absurd hc (by decide)

/-- C4: `After` takes an integer, so the option it appends sets `after` to a
decimal number and never to a cursor such as abc123, which `Do` does return in
`FollowedListResponse.Cursor`: no argument of `After` sends that cursor back. -/
theorem After_cannot_send_back_the_cursor (cf : FollowedListCall QueryOption)
    (cs : FollowersListCall QueryOption) (n : Int) :
    (FollowedListCall.Do scenarioDecode (NewFollowedResource scenarioClient).List
        background Slice.nil).response.map (fun r => r.Cursor) = some "abc123" ∧
    ((cf.After n).opts.elems =
        cf.opts.elems ++ [QueryOption.SetQueryParameter "after" (Sprint n)] ∧
      (cf.After n).opts.elems ≠
        cf.opts.elems ++ [QueryOption.SetQueryParameter "after" "abc123"]) ∧
    ((cs.After n).opts.elems =
        cs.opts.elems ++ [QueryOption.SetQueryParameter "after" (Sprint n)] ∧
      (cs.After n).opts.elems ≠
        cs.opts.elems ++ [QueryOption.SetQueryParameter "after" "abc123"]) := by
  have hf : (cf.After n).opts.elems =
      cf.opts.elems ++ [QueryOption.SetQueryParameter "after" (Sprint n)] := by
    simp [FollowedListCall.After, Slice.append_fst_elems, SetQueryParameter]
  have hs : (cs.After n).opts.elems =
      cs.opts.elems ++ [QueryOption.SetQueryParameter "after" (Sprint n)] := by
    simp [FollowersListCall.After, Slice.append_fst_elems, SetQueryParameter]
  refine ⟨by decide, ⟨hf, ?_⟩, ⟨hs, ?_⟩⟩
  · rw [hf]
    intro h
    have h2 := List.append_cancel_left h
    simp only [List.cons.injEq, QueryOption.SetQueryParameter.injEq, and_true, true_and] at h2
    exact Sprint_ne_abc123 n h2
  · rw [hs]
    intro h
    have h2 := List.append_cancel_left h
    simp only [List.cons.injEq, QueryOption.SetQueryParameter.injEq, and_true, true_and] at h2
    exact Sprint_ne_abc123 n h2

end GoTwitch
